import Mathlib

/-!
Shallow embedding of `src/persist/sqldb/sqldb.go` (package `sqldb` of
argo-workflows): the session builder that maps a persistence configuration
to an open, pool-configured database session.

External collaborators (the Kubernetes secret store `util.GetSecrets`, the
upper.io database client `postgresql.Open` / `mysql.Open` / `Exec`, the
`x509` PEM parser and the go-sql-driver TLS registry) live outside this
fragment; they are modelled as an explicit environment `Env` of pure
functions, so every builder is a pure function of its inputs and the
environment.

Go functions return a pair `(session, err)`; the embedding keeps that shape
as `Option Session × Option Err` so that the relation between the two
components is provable, not baked into a sum type.

Error values are tagged with the category of their return site, following
section 7 of the design document: `configError` for
`errors.InternalError` / `fmt.Errorf` on configuration problems,
`secretLookupError` for errors propagated from `util.GetSecrets`,
`tlsConfigError` for the PEM / TLS-registration failures, and
`connectionError` for `Open` and `Exec` failures.
-/

/-- Reference to a key inside a named Kubernetes secret
(`apiv1.SecretKeySelector`, fields used by this fragment: `Name`, `Key`).
The Go zero value has both strings empty. -/
structure SecretKeySelector where
  name : String := ""
  key : String := ""
deriving DecidableEq

/-- Connection-pool tuning record (`config.ConnectionPool`). Durations are
modelled as integers (nanosecond counts, as in Go `time.Duration`). -/
structure ConnectionPool where
  maxOpenConns : Int := 0
  maxIdleConns : Int := 0
  connMaxLifetime : Int := 0
deriving DecidableEq

/-- PostgreSQL backend configuration (`config.PostgreSQLConfig`), the fields
this fragment reads. -/
structure PostgreSQLConfig where
  host : String := ""
  database : String := ""
  tableName : String := ""
  usernameSecret : SecretKeySelector := {}
  passwordSecret : SecretKeySelector := {}
  ssl : Bool := false
  sslMode : String := ""
deriving DecidableEq

/-- MySQL backend configuration (`config.MySQLConfig`), the fields this
fragment reads. `options` is a Go `map[string]string`, `none` for the nil
map; it is modelled as an association list. -/
structure MySQLConfig where
  host : String := ""
  database : String := ""
  tableName : String := ""
  usernameSecret : SecretKeySelector := {}
  passwordSecret : SecretKeySelector := {}
  caCertSecret : SecretKeySelector := {}
  options : Option (List (String × String)) := none
deriving DecidableEq

/-- Persistence configuration (`config.PersistConfig`), the fields this
fragment reads: two nullable backend configs and an optional pool config. -/
structure PersistConfig where
  postgreSQL : Option PostgreSQLConfig := none
  mySQL : Option MySQLConfig := none
  connectionPool : Option ConnectionPool := none
deriving DecidableEq

/-- Modelled from the spec: `cfg.GetHostname()` is defined in the `config`
package, outside this fragment; the design document says the descriptor's
host is the configuration's hostname, so it is modelled as the config's
host field. -/
def PostgreSQLConfig.GetHostname (cfg : PostgreSQLConfig) : String :=
  cfg.host

/-- Modelled from the spec: `cfg.GetHostname()` for `config.MySQLConfig`,
defined outside this fragment; modelled as the config's host field. -/
def MySQLConfig.GetHostname (cfg : MySQLConfig) : String :=
  cfg.host

/-- Error categories of section 7 of the design document, tagging each
return site of the Go code. Propagated external errors carry the external
error message. -/
inductive Err where
  | configError (msg : String)
  | secretLookupError (msg : String)
  | tlsConfigError (msg : String)
  | connectionError (msg : String)
deriving DecidableEq

/-- The opaque session handle (`sqlbuilder.Database`). The fields record
what this fragment can set on it: the three pool setters and the list of
statements successfully executed through `Exec`, in order. `base`
distinguishes sessions handed out by the client double. -/
structure Session where
  base : String := ""
  maxOpenConns : Int := 0
  maxIdleConns : Int := 0
  connMaxLifetime : Int := 0
  executed : List String := []
deriving DecidableEq

/-- PostgreSQL connection descriptor (`postgresql.ConnectionURL`). `options`
is a Go `map[string]string` whose zero value is the nil map (`none`). -/
structure PGConnectionURL where
  user : String := ""
  password : String := ""
  host : String := ""
  database : String := ""
  options : Option (List (String × String)) := none
deriving DecidableEq

/-- MySQL connection descriptor (`mysql.ConnectionURL`). -/
structure MySQLConnectionURL where
  user : String := ""
  password : String := ""
  host : String := ""
  database : String := ""
  options : List (String × String) := []
deriving DecidableEq

/-- Go map insertion `m[k] = v` on the association-list model: replace the
existing binding of `k`, or append a new one. -/
def mapInsert (m : List (String × String)) (k v : String) : List (String × String) :=
  if m.any (fun kv => kv.1 = k) then
    m.map (fun kv => if kv.1 = k then (k, v) else kv)
  else
    m ++ [(k, v)]

/-- The external collaborators of the fragment, as pure (hence
deterministic) functions:
`getSecrets namespace name key` is `util.GetSecrets`;
`openPG` / `openMySQL` are `postgresql.Open` / `mysql.Open`;
`appendCertsFromPEM bytes` is whether `x509.CertPool.AppendCertsFromPEM`
succeeds on those bytes;
`registerTLSConfig key` is the error, if any, of
`mysqldriver.RegisterTLSConfig key ...`;
`execStmt stmt` is the error, if any, of `session.Exec stmt`. -/
structure Env where
  getSecrets : String → String → String → Except String String
  openPG : PGConnectionURL → Except String Session
  openMySQL : MySQLConnectionURL → Except String Session
  appendCertsFromPEM : String → Bool
  registerTLSConfig : String → Option String
  execStmt : String → Option String

/-- `session.Exec stmt`: on success the statement is recorded on the
session, on failure the error is returned. -/
def sessionExec (env : Env) (s : Session) (stmt : String) : Except String Session :=
  match env.execStmt stmt with
  | some e => .error e
  | none => .ok { s with executed := s.executed ++ [stmt] }

/-- The table name selected by `GetTableName` (sqldb.go lines 25-31): the
PostgreSQL table name if that backend is set, else the MySQL table name if
set, else the empty default of the uninitialised local. -/
def selectedTableName (persistConfig : PersistConfig) : String :=
  match persistConfig.postgreSQL with
  | some pg => pg.tableName
  | none =>
    match persistConfig.mySQL with
    | some my => my.tableName
    | none => ""

/-- `GetTableName` (sqldb.go lines 24-37): the selected table name, or an
error when it is empty. -/
def GetTableName (persistConfig : PersistConfig) : Except Err String :=
  let tableName := selectedTableName persistConfig
  if tableName = "" then
    .error (.configError "TableName is empty")
  else
    .ok tableName

/-- `ConfigureDBSession` (lines 157-165): applies the three pool setters
when a pool config is present, else leaves the session untouched; total. -/
def ConfigureDBSession (session : Session) (persistPool : Option ConnectionPool) : Session :=
  match persistPool with
  | some p =>
    { session with
        maxOpenConns := p.maxOpenConns
        maxIdleConns := p.maxIdleConns
        connMaxLifetime := p.connMaxLifetime }
  | none => session

/-- The PostgreSQL connection descriptor built at lines 65-79: user,
password, hostname and database, plus an `sslmode` option exactly when SSL
is requested with a non-empty mode. -/
def pgSettings (user password : String) (cfg : PostgreSQLConfig) : PGConnectionURL :=
  let settings : PGConnectionURL :=
    { user := user
      password := password
      host := cfg.GetHostname
      database := cfg.database }
  if cfg.ssl then
    if cfg.sslMode ≠ "" then
      { settings with options := some [("sslmode", cfg.sslMode)] }
    else
      settings
  else
    settings

/-- `CreatePostGresDBSession` (lines 53-87): look up username and password
secrets (propagating lookup failures), build the descriptor, open the
session (propagating open failures), apply the pool configuration. -/
def CreatePostGresDBSession (env : Env) (namespace_ : String)
    (cfg : PostgreSQLConfig) (persistPool : Option ConnectionPool) :
    Option Session × Option Err :=
  match env.getSecrets namespace_ cfg.usernameSecret.name cfg.usernameSecret.key with
  | .error e => (none, some (.secretLookupError e))
  | .ok userName =>
    match env.getSecrets namespace_ cfg.passwordSecret.name cfg.passwordSecret.key with
    | .error e => (none, some (.secretLookupError e))
    | .ok password =>
      match env.openPG (pgSettings userName password cfg) with
      | .error e => (none, some (.connectionError e))
      | .ok session => (some (ConfigureDBSession session persistPool), none)

/-- The base MySQL connection descriptor built at lines 105-116: user,
password, hostname, database, and the config's driver options (the empty
map when the config carries none). -/
def mysqlBaseSettings (user password : String) (cfg : MySQLConfig) : MySQLConnectionURL :=
  let settings : MySQLConnectionURL :=
    { user := user
      password := password
      host := cfg.GetHostname
      database := cfg.database }
  match cfg.options with
  | some opts => { settings with options := opts }
  | none => { settings with options := [] }

/-- The CA-certificate branch of `CreateMySQLDBSession` (lines 118-138):
when a CA secret reference is set, fetch the bytes (propagating lookup
failures), build a cert pool from the PEM bytes (failing when the PEM does
not parse), register the named TLS profile, and attach it to the options.

The source's three return sites in this branch (lines 121, 127, 134) are
written `return nil, "", err` - three values from a function declared to
return two, which Go rejects at compile time; the design document flags
this arity as a latent defect. They are modelled as the evident two-value
intent `return nil, err`. -/
def mysqlCABranch (env : Env) (namespace_ : String) (cfg : MySQLConfig)
    (settings : MySQLConnectionURL) : Except Err MySQLConnectionURL :=
  if cfg.caCertSecret ≠ ({} : SecretKeySelector) then
    match env.getSecrets namespace_ cfg.caCertSecret.name cfg.caCertSecret.key with
    | .error e => .error (.secretLookupError e)
    | .ok caCert =>
      if env.appendCertsFromPEM caCert then
        match env.registerTLSConfig "argo-ca-cert" with
        | some e => .error (.tlsConfigError e)
        | none => .ok { settings with options := mapInsert settings.options "tls" "argo-ca-cert" }
      else
        .error (.tlsConfigError "failed to append PEM")
  else
    .ok settings

/-- A single-quote character as a string, to spell the charset statements. -/
def singleQuote : String := String.singleton (Char.ofNat 39)

/-- The first charset-setup statement of line 146: SET NAMES, quoted
utf8mb4. -/
def setNamesStmt : String := "SET NAMES " ++ singleQuote ++ "utf8mb4" ++ singleQuote

/-- The second charset-setup statement of line 150. -/
def setCharsetStmt : String := "SET CHARACTER SET utf8mb4"

/-- `CreateMySQLDBSession` (lines 89-155): reject an empty table name, look
up username and password secrets, build the descriptor, run the
CA-certificate branch, open the session, apply the pool configuration, then
execute the two charset-setup statements in order, propagating the first
failure. -/
def CreateMySQLDBSession (env : Env) (namespace_ : String)
    (cfg : MySQLConfig) (persistPool : Option ConnectionPool) :
    Option Session × Option Err :=
  if cfg.tableName = "" then
    (none, some (.configError "tableName is empty"))
  else
    match env.getSecrets namespace_ cfg.usernameSecret.name cfg.usernameSecret.key with
    | .error e => (none, some (.secretLookupError e))
    | .ok userName =>
      match env.getSecrets namespace_ cfg.passwordSecret.name cfg.passwordSecret.key with
      | .error e => (none, some (.secretLookupError e))
      | .ok password =>
        match mysqlCABranch env namespace_ cfg (mysqlBaseSettings userName password cfg) with
        | .error err => (none, some err)
        | .ok settings =>
          match env.openMySQL settings with
          | .error e => (none, some (.connectionError e))
          | .ok session =>
            let session := ConfigureDBSession session persistPool
            match sessionExec env session setNamesStmt with
            | .error e => (none, some (.connectionError e))
            | .ok session =>
              match sessionExec env session setCharsetStmt with
              | .error e => (none, some (.connectionError e))
              | .ok session => (some session, none)

/-- `CreateDBSession` (lines 39-51): fail on a nil persistence config,
dispatch to the PostgreSQL builder when that backend is set, else to the
MySQL builder, else fail with no databases configured. -/
def CreateDBSession (env : Env) (namespace_ : String)
    (persistConfig : Option PersistConfig) : Option Session × Option Err :=
  match persistConfig with
  | none => (none, some (.configError "Persistence config is not found"))
  | some pc =>
    match pc.postgreSQL with
    | some cfg => CreatePostGresDBSession env namespace_ cfg pc.connectionPool
    | none =>
      match pc.mySQL with
      | some cfg => CreateMySQLDBSession env namespace_ cfg pc.connectionPool
      | none => (none, some (.configError "no databases are configured"))

/-! Concrete doubles used by the witnesses. -/

/-- An environment in which every external call succeeds. -/
def envAllOk : Env :=
  { getSecrets := fun _ _ _ => .ok "secret"
    openPG := fun _ => .ok {}
    openMySQL := fun _ => .ok {}
    appendCertsFromPEM := fun _ => true
    registerTLSConfig := fun _ => none
    execStmt := fun _ => none }

/-- An environment whose secret store fails every lookup. -/
def envSecretFail : Env :=
  { envAllOk with getSecrets := fun _ _ _ => .error "lookup failed" }

/-- An environment whose secret store fails exactly the password lookup. -/
def envPasswordFail : Env :=
  { envAllOk with
      getSecrets := fun _ name _ =>
        if name = "pw" then .error "lookup failed" else .ok "secret" }

/-- An environment in which the CA bytes do not parse as PEM. -/
def envBadPEM : Env :=
  { envAllOk with appendCertsFromPEM := fun _ => false }

/-- An environment in which the first charset statement fails. -/
def envExecFail : Env :=
  { envAllOk with
      execStmt := fun stmt => if stmt = setNamesStmt then some "exec failed" else none }

/-- A small PostgreSQL configuration with SSL mode require. -/
def pgSslCfg : PostgreSQLConfig :=
  { host := "localhost:5432"
    database := "argo"
    tableName := "argo_workflows"
    usernameSecret := { name := "un", key := "username" }
    passwordSecret := { name := "pw", key := "password" }
    ssl := true
    sslMode := "require" }

/-- A small MySQL configuration with no CA-certificate reference. -/
def myCfg : MySQLConfig :=
  { host := "localhost:3306"
    database := "argo"
    tableName := "argo_workflows"
    usernameSecret := { name := "un", key := "username" }
    passwordSecret := { name := "pw", key := "password" } }

/-- `myCfg` with a CA-certificate secret reference attached. -/
def myCaCfg : MySQLConfig :=
  { myCfg with caCertSecret := { name := "ca", key := "caCert" } }

/-- A persistence configuration used by the determinism witness: PostgreSQL
backend with a pool limit of five open connections. -/
def pcPG : PersistConfig :=
  { postgreSQL := some pgSslCfg
    connectionPool := some { maxOpenConns := 5, maxIdleConns := 2, connMaxLifetime := 60 } }

/-- A persistence configuration with both backends set, for the dispatch
witness. -/
def pcBoth : PersistConfig :=
  { postgreSQL := some pgSslCfg, mySQL := some myCfg }

/-- A persistence configuration whose selected (MySQL) table name is
empty. -/
def pcEmptyMy : PersistConfig :=
  { mySQL := some { myCfg with tableName := "" } }

example :
    CreateDBSession envAllOk "argo" (some { postgreSQL := some pgSslCfg }) =
      (some {}, none) := by decide

example :
    CreateDBSession envAllOk "argo" (some { mySQL := some myCfg }) =
      (some { executed := [setNamesStmt, setCharsetStmt] }, none) := by decide

example :
    CreateMySQLDBSession envBadPEM "argo" myCaCfg none =
      (none, some (.tlsConfigError "failed to append PEM")) := by decide

/-- C1: for every persistence configuration in which both the PostgreSQL
and the MySQL backend configs are unset, `CreateDBSession` returns the
no-databases-configured `configError` and no session, for every
environment (so no external call influences the outcome). -/
theorem createDBSession_no_backend_configError (env : Env) (ns : String)
    (pc : PersistConfig) (hpg : pc.postgreSQL = none) (hmy : pc.mySQL = none) :
    CreateDBSession env ns (some pc) =
      (none, some (.configError "no databases are configured")) := by
  simp [CreateDBSession, hpg, hmy]

/-- C1 witness: the empty persistence configuration at a concrete
environment. -/
theorem createDBSession_no_backend_configError_witness :
    ({} : PersistConfig).postgreSQL = none ∧ ({} : PersistConfig).mySQL = none ∧
    CreateDBSession envAllOk "argo" (some {}) =
      (none, some (.configError "no databases are configured")) :=
  ⟨rfl, rfl, createDBSession_no_backend_configError envAllOk "argo" {} rfl rfl⟩

/-- C2: for every MySQL configuration with an empty table name,
`CreateMySQLDBSession` returns the empty-table-name `configError` and no
session, and so does `CreateDBSession` dispatching to it. The environment
is universally quantified, so the result is the same whatever the secret
store would answer: no secret lookup influences the outcome, which is the
observable content of the lookup happening only after the table-name
check. -/
theorem createMySQLDBSession_empty_table_configError (env : Env) (ns : String)
    (cfg : MySQLConfig) (pool : Option ConnectionPool) (pc : PersistConfig)
    (h : cfg.tableName = "") (hpg : pc.postgreSQL = none) (hmy : pc.mySQL = some cfg) :
    CreateMySQLDBSession env ns cfg pool =
      (none, some (.configError "tableName is empty")) ∧
    CreateDBSession env ns (some pc) =
      (none, some (.configError "tableName is empty")) := by
  constructor
  · simp [CreateMySQLDBSession, h]
  · simp [CreateDBSession, hpg, hmy, CreateMySQLDBSession, h]

/-- C2 witness: a MySQL config with empty table name, under an environment
whose secret store would succeed, still yields the config error. -/
theorem createMySQLDBSession_empty_table_configError_witness :
    ({ myCfg with tableName := "" } : MySQLConfig).tableName = "" ∧
    (CreateMySQLDBSession envAllOk "argo" { myCfg with tableName := "" } none =
        (none, some (.configError "tableName is empty")) ∧
      CreateDBSession envAllOk "argo"
          (some { mySQL := some { myCfg with tableName := "" } }) =
        (none, some (.configError "tableName is empty"))) :=
  ⟨rfl,
    createMySQLDBSession_empty_table_configError envAllOk "argo"
      { myCfg with tableName := "" } none
      { mySQL := some { myCfg with tableName := "" } } rfl rfl rfl⟩

/-- C6: `ConfigureDBSession` leaves the session untouched when the pool
configuration is unset; otherwise it sets exactly the three pool fields to
the configured values and changes nothing else; being a total function into
`Session`, it never fails. -/
theorem configureDBSession_pool_fields (s : Session) (p : ConnectionPool) :
    ConfigureDBSession s none = s ∧
    (ConfigureDBSession s (some p)).maxOpenConns = p.maxOpenConns ∧
    (ConfigureDBSession s (some p)).maxIdleConns = p.maxIdleConns ∧
    (ConfigureDBSession s (some p)).connMaxLifetime = p.connMaxLifetime ∧
    (ConfigureDBSession s (some p)).base = s.base ∧
    (ConfigureDBSession s (some p)).executed = s.executed :=
  ⟨rfl, rfl, rfl, rfl, rfl, rfl⟩

/-- C3: in both backend builders, a failing username or password lookup
makes the builder return that failure as a `secretLookupError`. The
environment is universally quantified and the result is pinned by the
failing lookup alone, so neither the other lookup nor the client Open can
influence the outcome: the password lookup is irrelevant once the username
lookup fails, and no open happens on either failure. -/
theorem builders_secretLookup_failure_aborts (env : Env) (ns : String) (e : String) :
    (∀ (cfg : PostgreSQLConfig) (pool : Option ConnectionPool),
      env.getSecrets ns cfg.usernameSecret.name cfg.usernameSecret.key = .error e →
      CreatePostGresDBSession env ns cfg pool = (none, some (.secretLookupError e))) ∧
    (∀ (cfg : PostgreSQLConfig) (pool : Option ConnectionPool) (u : String),
      env.getSecrets ns cfg.usernameSecret.name cfg.usernameSecret.key = .ok u →
      env.getSecrets ns cfg.passwordSecret.name cfg.passwordSecret.key = .error e →
      CreatePostGresDBSession env ns cfg pool = (none, some (.secretLookupError e))) ∧
    (∀ (cfg : MySQLConfig) (pool : Option ConnectionPool),
      cfg.tableName ≠ "" →
      env.getSecrets ns cfg.usernameSecret.name cfg.usernameSecret.key = .error e →
      CreateMySQLDBSession env ns cfg pool = (none, some (.secretLookupError e))) ∧
    (∀ (cfg : MySQLConfig) (pool : Option ConnectionPool) (u : String),
      cfg.tableName ≠ "" →
      env.getSecrets ns cfg.usernameSecret.name cfg.usernameSecret.key = .ok u →
      env.getSecrets ns cfg.passwordSecret.name cfg.passwordSecret.key = .error e →
      CreateMySQLDBSession env ns cfg pool = (none, some (.secretLookupError e))) := by
  refine ⟨?_, ?_, ?_, ?_⟩
  · intro cfg pool h
    simp [CreatePostGresDBSession, h]
  · intro cfg pool u hu hp
    simp [CreatePostGresDBSession, hu, hp]
  · intro cfg pool ht h
    simp [CreateMySQLDBSession, ht, h]
  · intro cfg pool u ht hu hp
    simp [CreateMySQLDBSession, ht, hu, hp]

/-- C3 witness: concrete failing username lookup on both backends, and a
concrete failing password lookup on the PostgreSQL backend. -/
theorem builders_secretLookup_failure_aborts_witness :
    envSecretFail.getSecrets "argo" "un" "username" = .error "lookup failed" ∧
    CreatePostGresDBSession envSecretFail "argo" pgSslCfg none =
      (none, some (.secretLookupError "lookup failed")) ∧
    myCfg.tableName ≠ "" ∧
    CreateMySQLDBSession envSecretFail "argo" myCfg none =
      (none, some (.secretLookupError "lookup failed")) ∧
    envPasswordFail.getSecrets "argo" "pw" "password" = .error "lookup failed" ∧
    CreatePostGresDBSession envPasswordFail "argo" pgSslCfg none =
      (none, some (.secretLookupError "lookup failed")) :=
  ⟨rfl,
    (builders_secretLookup_failure_aborts envSecretFail "argo" "lookup failed").1
      pgSslCfg none rfl,
    by decide,
    (builders_secretLookup_failure_aborts envSecretFail "argo" "lookup failed").2.2.1
      myCfg none (by decide) rfl,
    rfl,
    (builders_secretLookup_failure_aborts envPasswordFail "argo" "lookup failed").2.1
      pgSslCfg none "secret" rfl rfl⟩

/-- C5: with the secret lookups succeeding, the PostgreSQL builder passes
to Open exactly the descriptor `pgSettings u p cfg`; when SSL is enabled
with mode require that descriptor carries the sslmode=require option, and
when SSL is enabled with an empty mode no options are attached (the
options map stays nil). -/
theorem createPostGresDBSession_ssl_options (env : Env) (ns : String)
    (cfg : PostgreSQLConfig) (pool : Option ConnectionPool) (u p : String)
    (hu : env.getSecrets ns cfg.usernameSecret.name cfg.usernameSecret.key = .ok u)
    (hp : env.getSecrets ns cfg.passwordSecret.name cfg.passwordSecret.key = .ok p) :
    (cfg.ssl = true → cfg.sslMode = "require" →
      (pgSettings u p cfg).options = some [("sslmode", "require")]) ∧
    (cfg.ssl = true → cfg.sslMode = "" →
      (pgSettings u p cfg).options = none) ∧
    CreatePostGresDBSession env ns cfg pool =
      (match env.openPG (pgSettings u p cfg) with
        | .error e => (none, some (.connectionError e))
        | .ok session => (some (ConfigureDBSession session pool), none)) := by
  refine ⟨?_, ?_, ?_⟩
  · intro hssl hmode
    simp [pgSettings, hssl, hmode]
  · intro hssl hmode
    simp [pgSettings, hssl, hmode]
  · simp [CreatePostGresDBSession, hu, hp]

/-- C5 witness: the ssl-require configuration at a concrete environment. -/
theorem createPostGresDBSession_ssl_options_witness :
    envAllOk.getSecrets "argo" "un" "username" = .ok "secret" ∧
    envAllOk.getSecrets "argo" "pw" "password" = .ok "secret" ∧
    ((pgSslCfg.ssl = true → pgSslCfg.sslMode = "require" →
        (pgSettings "secret" "secret" pgSslCfg).options = some [("sslmode", "require")]) ∧
      (pgSslCfg.ssl = true → pgSslCfg.sslMode = "" →
        (pgSettings "secret" "secret" pgSslCfg).options = none) ∧
      CreatePostGresDBSession envAllOk "argo" pgSslCfg none =
        (match envAllOk.openPG (pgSettings "secret" "secret" pgSslCfg) with
          | .error e => (none, some (.connectionError e))
          | .ok session => (some (ConfigureDBSession session none), none))) :=
  ⟨rfl, rfl,
    createPostGresDBSession_ssl_options envAllOk "argo" pgSslCfg none
      "secret" "secret" rfl rfl⟩

/-- C4: with a CA-certificate secret reference set and the retrieved bytes
failing the PEM parse, the MySQL builder (modelled with the two-value
return intent of the ill-typed lines 121, 127, 134) returns the
failed-to-append-PEM `tlsConfigError` and no session; the environment's
Open is universally quantified, so no session is ever opened on this
path. -/
theorem createMySQLDBSession_bad_pem_tlsConfigError (env : Env) (ns : String)
    (cfg : MySQLConfig) (pool : Option ConnectionPool) (u p ca : String)
    (ht : cfg.tableName ≠ "")
    (hca : cfg.caCertSecret ≠ ({} : SecretKeySelector))
    (hu : env.getSecrets ns cfg.usernameSecret.name cfg.usernameSecret.key = .ok u)
    (hp : env.getSecrets ns cfg.passwordSecret.name cfg.passwordSecret.key = .ok p)
    (hcab : env.getSecrets ns cfg.caCertSecret.name cfg.caCertSecret.key = .ok ca)
    (hpem : env.appendCertsFromPEM ca = false) :
    CreateMySQLDBSession env ns cfg pool =
      (none, some (.tlsConfigError "failed to append PEM")) := by
  simp [CreateMySQLDBSession, ht, hu, hp, mysqlCABranch, hca, hcab, hpem]

/-- C4 witness: a concrete MySQL configuration with a CA reference whose
bytes do not parse as PEM. -/
theorem createMySQLDBSession_bad_pem_tlsConfigError_witness :
    myCaCfg.tableName ≠ "" ∧
    myCaCfg.caCertSecret ≠ ({} : SecretKeySelector) ∧
    envBadPEM.getSecrets "argo" "ca" "caCert" = .ok "secret" ∧
    envBadPEM.appendCertsFromPEM "secret" = false ∧
    CreateMySQLDBSession envBadPEM "argo" myCaCfg none =
      (none, some (.tlsConfigError "failed to append PEM")) :=
  ⟨by decide, by decide, rfl, rfl,
    createMySQLDBSession_bad_pem_tlsConfigError envBadPEM "argo" myCaCfg none
      "secret" "secret" "secret" (by decide) (by decide) rfl rfl rfl rfl⟩

/-- C7: on the MySQL path, in every run that reaches a successful open
(whether or not a CA-certificate secret is configured: the CA branch is
only required to have produced some descriptor), after pool configuration
the builder executes exactly the two charset statements, SET NAMES with
quoted utf8mb4 first and SET CHARACTER SET utf8mb4 second (visible as the
session's executed-statement list), returns a `connectionError` as soon as
either execution fails, and on success returns the session. -/
theorem createMySQLDBSession_charset_statements (env : Env) (ns : String)
    (cfg : MySQLConfig) (pool : Option ConnectionPool) (u p : String)
    (settings : MySQLConnectionURL) (s0 : Session)
    (ht : cfg.tableName ≠ "")
    (hu : env.getSecrets ns cfg.usernameSecret.name cfg.usernameSecret.key = .ok u)
    (hp : env.getSecrets ns cfg.passwordSecret.name cfg.passwordSecret.key = .ok p)
    (hbr : mysqlCABranch env ns cfg (mysqlBaseSettings u p cfg) = .ok settings)
    (hopen : env.openMySQL settings = .ok s0) :
    (∀ e, env.execStmt setNamesStmt = some e →
      CreateMySQLDBSession env ns cfg pool = (none, some (.connectionError e))) ∧
    (∀ e, env.execStmt setNamesStmt = none → env.execStmt setCharsetStmt = some e →
      CreateMySQLDBSession env ns cfg pool = (none, some (.connectionError e))) ∧
    (env.execStmt setNamesStmt = none → env.execStmt setCharsetStmt = none →
      CreateMySQLDBSession env ns cfg pool =
        (some { ConfigureDBSession s0 pool with
                  executed := (ConfigureDBSession s0 pool).executed
                    ++ [setNamesStmt, setCharsetStmt] }, none)) := by
  refine ⟨?_, ?_, ?_⟩
  · intro e he
    simp [CreateMySQLDBSession, ht, hu, hp, hbr, hopen, sessionExec, he]
  · intro e h1 h2
    simp [CreateMySQLDBSession, ht, hu, hp, hbr, hopen, sessionExec, h1, h2]
  · intro h1 h2
    simp [CreateMySQLDBSession, ht, hu, hp, hbr, hopen, sessionExec, h1, h2]

/-- C7 witness: a successful CA-bearing run (the descriptor carries the
registered TLS profile) recording the two statements in order, and a run
without a CA reference in which the first statement fails. -/
theorem createMySQLDBSession_charset_statements_witness :
    myCaCfg.tableName ≠ "" ∧
    mysqlCABranch envAllOk "argo" myCaCfg (mysqlBaseSettings "secret" "secret" myCaCfg) =
      .ok { mysqlBaseSettings "secret" "secret" myCaCfg with
              options := [("tls", "argo-ca-cert")] } ∧
    envAllOk.openMySQL
        { mysqlBaseSettings "secret" "secret" myCaCfg with
            options := [("tls", "argo-ca-cert")] } = .ok {} ∧
    envAllOk.execStmt setNamesStmt = none ∧
    envAllOk.execStmt setCharsetStmt = none ∧
    CreateMySQLDBSession envAllOk "argo" myCaCfg none =
      (some { ConfigureDBSession {} none with
                executed := (ConfigureDBSession {} none).executed
                  ++ [setNamesStmt, setCharsetStmt] }, none) ∧
    envExecFail.execStmt setNamesStmt = some "exec failed" ∧
    CreateMySQLDBSession envExecFail "argo" myCfg none =
      (none, some (.connectionError "exec failed")) :=
  ⟨by decide, rfl, rfl, rfl, rfl,
    (createMySQLDBSession_charset_statements envAllOk "argo" myCaCfg none
      "secret" "secret"
      { mysqlBaseSettings "secret" "secret" myCaCfg with
          options := [("tls", "argo-ca-cert")] }
      {} (by decide) rfl rfl rfl rfl).2.2 rfl rfl,
    rfl,
    (createMySQLDBSession_charset_statements envExecFail "argo" myCfg none
      "secret" "secret" (mysqlBaseSettings "secret" "secret" myCfg)
      {} (by decide) rfl rfl rfl rfl).1 "exec failed" rfl⟩

/-- C8: every result of `CreateDBSession` and of either backend builder is
either an error with no session or a session with no error: a non-nil
error always comes with a nil session, so no partially-configured session
reaches the caller. -/
theorem builders_no_partial_session (env : Env) (ns : String) :
    (∀ (cfg : PostgreSQLConfig) (pool : Option ConnectionPool),
      (∃ e, CreatePostGresDBSession env ns cfg pool = (none, some e)) ∨
      (∃ s, CreatePostGresDBSession env ns cfg pool = (some s, none))) ∧
    (∀ (cfg : MySQLConfig) (pool : Option ConnectionPool),
      (∃ e, CreateMySQLDBSession env ns cfg pool = (none, some e)) ∨
      (∃ s, CreateMySQLDBSession env ns cfg pool = (some s, none))) ∧
    (∀ pc : Option PersistConfig,
      (∃ e, CreateDBSession env ns pc = (none, some e)) ∨
      (∃ s, CreateDBSession env ns pc = (some s, none))) := by
  have hpg : ∀ (cfg : PostgreSQLConfig) (pool : Option ConnectionPool),
      (∃ e, CreatePostGresDBSession env ns cfg pool = (none, some e)) ∨
      (∃ s, CreatePostGresDBSession env ns cfg pool = (some s, none)) := by
    intro cfg pool
    rcases hu : env.getSecrets ns cfg.usernameSecret.name cfg.usernameSecret.key with e | u
    · exact .inl ⟨.secretLookupError e, by simp [CreatePostGresDBSession, hu]⟩
    rcases hp : env.getSecrets ns cfg.passwordSecret.name cfg.passwordSecret.key with e | p
    · exact .inl ⟨.secretLookupError e, by simp [CreatePostGresDBSession, hu, hp]⟩
    rcases ho : env.openPG (pgSettings u p cfg) with e | s
    · exact .inl ⟨.connectionError e, by simp [CreatePostGresDBSession, hu, hp, ho]⟩
    · exact .inr ⟨ConfigureDBSession s pool, by simp [CreatePostGresDBSession, hu, hp, ho]⟩
  have hmy : ∀ (cfg : MySQLConfig) (pool : Option ConnectionPool),
      (∃ e, CreateMySQLDBSession env ns cfg pool = (none, some e)) ∨
      (∃ s, CreateMySQLDBSession env ns cfg pool = (some s, none)) := by
    intro cfg pool
    by_cases ht : cfg.tableName = ""
    · exact .inl ⟨.configError "tableName is empty", by simp [CreateMySQLDBSession, ht]⟩
    rcases hu : env.getSecrets ns cfg.usernameSecret.name cfg.usernameSecret.key with e | u
    · exact .inl ⟨.secretLookupError e, by simp [CreateMySQLDBSession, ht, hu]⟩
    rcases hp : env.getSecrets ns cfg.passwordSecret.name cfg.passwordSecret.key with e | p
    · exact .inl ⟨.secretLookupError e, by simp [CreateMySQLDBSession, ht, hu, hp]⟩
    rcases hbr : mysqlCABranch env ns cfg (mysqlBaseSettings u p cfg) with err | settings
    · exact .inl ⟨err, by simp [CreateMySQLDBSession, ht, hu, hp, hbr]⟩
    rcases ho : env.openMySQL settings with e | s
    · exact .inl ⟨.connectionError e, by simp [CreateMySQLDBSession, ht, hu, hp, hbr, ho]⟩
    rcases he1 : env.execStmt setNamesStmt with _ | e
    · rcases he2 : env.execStmt setCharsetStmt with _ | e
      · exact .inr ⟨{ ConfigureDBSession s pool with
            executed := (ConfigureDBSession s pool).executed ++ [setNamesStmt, setCharsetStmt] }, by
          simp [CreateMySQLDBSession, ht, hu, hp, hbr, ho, sessionExec, he1, he2]⟩
      · exact .inl ⟨.connectionError e, by
          simp [CreateMySQLDBSession, ht, hu, hp, hbr, ho, sessionExec, he1, he2]⟩
    · exact .inl ⟨.connectionError e,
        by simp [CreateMySQLDBSession, ht, hu, hp, hbr, ho, sessionExec, he1]⟩
  refine ⟨hpg, hmy, ?_⟩
  intro pc
  cases pc with
  | none => exact .inl ⟨_, rfl⟩
  | some pc =>
    rcases hp1 : pc.postgreSQL with _ | cfg
    · rcases hm1 : pc.mySQL with _ | cfg
      · exact .inl ⟨.configError "no databases are configured",
          by simp [CreateDBSession, hp1, hm1]⟩
      · rcases hmy cfg pc.connectionPool with ⟨e, he⟩ | ⟨s, hs⟩
        · exact .inl ⟨e, by simp [CreateDBSession, hp1, hm1, he]⟩
        · exact .inr ⟨s, by simp [CreateDBSession, hp1, hm1, hs]⟩
    · rcases hpg cfg pc.connectionPool with ⟨e, he⟩ | ⟨s, hs⟩
      · exact .inl ⟨e, by simp [CreateDBSession, hp1, he]⟩
      · exact .inr ⟨s, by simp [CreateDBSession, hp1, hs]⟩

/-- C9: the builders are pure functions of the configuration, namespace and
(deterministic) environment, so two calls on identical inputs that both
succeed return one and the same session, in particular one with identical
pool configuration. -/
theorem createDBSession_deterministic (env : Env) (ns : String)
    (pc : Option PersistConfig) (s1 s2 : Session)
    (h1 : CreateDBSession env ns pc = (some s1, none))
    (h2 : CreateDBSession env ns pc = (some s2, none)) :
    s1 = s2 ∧ s1.maxOpenConns = s2.maxOpenConns ∧
      s1.maxIdleConns = s2.maxIdleConns ∧
      s1.connMaxLifetime = s2.connMaxLifetime := by
  have h := h1.symm.trans h2
  have hs : s1 = s2 := by
    have h3 := congrArg Prod.fst h
    simpa using h3
  exact ⟨hs, by rw [hs], by rw [hs], by rw [hs]⟩

/-- C9 witness: two identical successful calls on a concrete configuration
with a pool limit of five open connections. -/
theorem createDBSession_deterministic_witness :
    CreateDBSession envAllOk "argo" (some pcPG) =
      (some { maxOpenConns := 5, maxIdleConns := 2, connMaxLifetime := 60 }, none) ∧
    (({ maxOpenConns := 5, maxIdleConns := 2, connMaxLifetime := 60 } : Session) =
        { maxOpenConns := 5, maxIdleConns := 2, connMaxLifetime := 60 } ∧
      ({ maxOpenConns := 5, maxIdleConns := 2, connMaxLifetime := 60 } : Session).maxOpenConns =
        ({ maxOpenConns := 5, maxIdleConns := 2, connMaxLifetime := 60 } : Session).maxOpenConns ∧
      ({ maxOpenConns := 5, maxIdleConns := 2, connMaxLifetime := 60 } : Session).maxIdleConns =
        ({ maxOpenConns := 5, maxIdleConns := 2, connMaxLifetime := 60 } : Session).maxIdleConns ∧
      ({ maxOpenConns := 5, maxIdleConns := 2, connMaxLifetime := 60 } : Session).connMaxLifetime =
        ({ maxOpenConns := 5, maxIdleConns := 2, connMaxLifetime := 60 } : Session).connMaxLifetime) :=
  ⟨by decide,
    createDBSession_deterministic envAllOk "argo" (some pcPG)
      { maxOpenConns := 5, maxIdleConns := 2, connMaxLifetime := 60 }
      { maxOpenConns := 5, maxIdleConns := 2, connMaxLifetime := 60 }
      (by decide) (by decide)⟩

/-- C10: with both backends set, `CreateDBSession` dispatches to the
PostgreSQL builder (the result coincides with the PostgreSQL builder's,
whatever the ignored MySQL config holds) and `GetTableName` returns the
PostgreSQL table name; `GetTableName` returns its error exactly when the
selected table name (the empty default when no backend is set) is empty. -/
theorem createDBSession_both_backends (env : Env) (ns : String)
    (pg : PostgreSQLConfig) (my : MySQLConfig) (pool : Option ConnectionPool)
    (pc : PersistConfig) (hne : pg.tableName ≠ "") :
    CreateDBSession env ns
        (some { postgreSQL := some pg, mySQL := some my, connectionPool := pool }) =
      CreatePostGresDBSession env ns pg pool ∧
    GetTableName { postgreSQL := some pg, mySQL := some my, connectionPool := pool } =
      .ok pg.tableName ∧
    (GetTableName pc = .error (.configError "TableName is empty") ↔
      selectedTableName pc = "") := by
  refine ⟨?_, ?_, ?_, ?_⟩
  · simp [CreateDBSession]
  · simp [GetTableName, selectedTableName, hne]
  · intro h
    by_contra hne2
    simp [GetTableName, hne2] at h
  · intro h
    simp [GetTableName, h]

/-- C10 witness: both backends set with the PostgreSQL table name
argo_workflows, and a configuration whose selected MySQL table name is
empty. -/
theorem createDBSession_both_backends_witness :
    pgSslCfg.tableName ≠ "" ∧
    (CreateDBSession envAllOk "argo"
          (some { postgreSQL := some pgSslCfg, mySQL := some myCfg, connectionPool := none }) =
        CreatePostGresDBSession envAllOk "argo" pgSslCfg none ∧
      GetTableName { postgreSQL := some pgSslCfg, mySQL := some myCfg, connectionPool := none } =
        .ok pgSslCfg.tableName ∧
      (GetTableName pcEmptyMy = .error (.configError "TableName is empty") ↔
        selectedTableName pcEmptyMy = "")) :=
  ⟨by decide,
    createDBSession_both_backends envAllOk "argo" pgSslCfg myCfg none pcEmptyMy (by decide)⟩
